/-
Verification development for the buttplug-rs device protocol translation layer.

Embedded source files:
  * src/buttplug/src/device/protocol/fleshlight_launch_helper.rs
      (get_distance / get_speed / get_duration motion-curve math, Rust f64)
  * src/buttplug/src/device/protocol/lovense.rs
      (LovenseProtocolCreator::try_create_protocol handshake and the
       Lovense VibrateCmd / RotateCmd handlers)

Floating point model: Rust `f64` is embedded as the type `F64` below, an
inductive with a `finite` constructor carrying a real number plus the IEEE 754
special values `inf`, `neginf` and `nan` (negative zero is identified with
`finite 0`; it never arises on the code paths the theorems exercise).
Arithmetic on `finite` values is exact real arithmetic — rounding and overflow
of finite intermediate results are idealized away — while every rule involving
a special value (division by zero, NaN propagation, `powf` at zero and
infinity, Rust's `f64::min` / `f64::max` treatment of NaN) follows IEEE 754
and the Rust standard library exactly.  The theorems below only exercise
paths whose truth value is independent of finite-value rounding: exact zeros
produced by early returns, the clamp `.min(1.0).max(0.0)`, special-value
propagation, and the algebraic identity `x / x = 1` for positive `x`.

The generic command manager (`update_vibration` / `update_rotation`) is not
part of the provided sources; it is modelled from the spec where marked.
-/
import Mathlib

open scoped Classical

/-- Model of Rust `f64`: a real number, or one of the IEEE special values. -/
inductive F64 where
  | finite (x : ℝ)
  | inf
  | neginf
  | nan

/-- Rust `a < b` on `f64`: any comparison with NaN is false. -/
def F64.flt : F64 → F64 → Prop
  | .finite a, .finite b => a < b
  | .nan, _ => False
  | _, .nan => False
  | .neginf, .finite _ => True
  | .neginf, .inf => True
  | .finite _, .inf => True
  | _, _ => False

/-- Rust `a <= b` on `f64`: any comparison with NaN is false. -/
def F64.fle : F64 → F64 → Prop
  | .finite a, .finite b => a ≤ b
  | .nan, _ => False
  | _, .nan => False
  | .neginf, _ => True
  | _, .inf => True
  | _, _ => False

/-- IEEE multiplication; finite values multiply exactly. -/
noncomputable def F64.mul : F64 → F64 → F64
  | .nan, _ => .nan
  | _, .nan => .nan
  | .finite a, .finite b => .finite (a * b)
  | .finite a, .inf => if 0 < a then .inf else if a < 0 then .neginf else .nan
  | .inf, .finite a => if 0 < a then .inf else if a < 0 then .neginf else .nan
  | .finite a, .neginf => if 0 < a then .neginf else if a < 0 then .inf else .nan
  | .neginf, .finite a => if 0 < a then .neginf else if a < 0 then .inf else .nan
  | .inf, .inf => .inf
  | .neginf, .neginf => .inf
  | .inf, .neginf => .neginf
  | .neginf, .inf => .neginf

/-- IEEE subtraction; finite values subtract exactly. -/
noncomputable def F64.fsub : F64 → F64 → F64
  | .nan, _ => .nan
  | _, .nan => .nan
  | .finite a, .finite b => .finite (a - b)
  | .inf, .finite _ => .inf
  | .neginf, .finite _ => .neginf
  | .finite _, .inf => .neginf
  | .finite _, .neginf => .inf
  | .inf, .neginf => .inf
  | .neginf, .inf => .neginf
  | .inf, .inf => .nan
  | .neginf, .neginf => .nan

/-- IEEE division; a nonzero finite value divided by (positive) zero gives a
signed infinity, `0 / 0` gives NaN, finite values divide exactly. -/
noncomputable def F64.fdiv : F64 → F64 → F64
  | .nan, _ => .nan
  | _, .nan => .nan
  | .finite a, .finite b =>
      if b = 0 then (if 0 < a then .inf else if a < 0 then .neginf else .nan)
      else .finite (a / b)
  | .finite _, .inf => .finite 0
  | .finite _, .neginf => .finite 0
  | .inf, .finite b => if b < 0 then .neginf else .inf
  | .neginf, .finite b => if b < 0 then .inf else .neginf
  | .inf, .inf => .nan
  | .inf, .neginf => .nan
  | .neginf, .inf => .nan
  | .neginf, .neginf => .nan

/-- Rust `f64::powf`, for the exponents this module uses (finite, non-zero,
non-integer): `x ^ y` is `Real.rpow` for positive finite `x`;
`pow(+0, y) = +inf` for `y < 0` and `+0` for `y > 0`; a negative base with a
non-integer exponent is NaN; `pow(+inf, y) = +0` for `y < 0` and `+inf` for
`y > 0`; `pow(x, 0) = 1`; NaN propagates otherwise.  The unused cases where
the exponent itself is infinite are collapsed to NaN. -/
noncomputable def F64.powf : F64 → F64 → F64
  | .finite a, .finite b =>
      if b = 0 then .finite 1
      else if 0 < a then .finite (a ^ b)
      else if a = 0 then (if b < 0 then .inf else .finite 0)
      else .nan
  | .inf, .finite b => if b = 0 then .finite 1 else if b < 0 then .finite 0 else .inf
  | .neginf, .finite b => if b = 0 then .finite 1 else if b < 0 then .finite 0 else .inf
  | .nan, .finite b => if b = 0 then .finite 1 else .nan
  | _, _ => .nan

/-- Rust `f64::abs`. -/
noncomputable def F64.fabs : F64 → F64
  | .finite a => .finite |a|
  | .inf => .inf
  | .neginf => .inf
  | .nan => .nan

/-- Rust `f64::min`: if one operand is NaN the other is returned. -/
noncomputable def F64.fmin : F64 → F64 → F64
  | .nan, b => b
  | a, .nan => a
  | .neginf, _ => .neginf
  | _, .neginf => .neginf
  | .inf, b => b
  | a, .inf => a
  | .finite a, .finite b => .finite (min a b)

/-- Rust `f64::max`: if one operand is NaN the other is returned. -/
noncomputable def F64.fmax : F64 → F64 → F64
  | .nan, b => b
  | a, .nan => a
  | .inf, _ => .inf
  | _, .inf => .inf
  | .neginf, b => b
  | a, .neginf => a
  | .finite a, .finite b => .finite (max a b)

/-- Body of `get_distance` after the `speed <= 0` / `speed > 1` guards
(fleshlight_launch_helper.rs lines 11-19): the source mutates `speed` in
place; here the caller passes the clamped value in. -/
noncomputable def distCore (duration : ℕ) (speed : F64) : F64 :=
  let mil := F64.powf (F64.fdiv speed (F64.finite 250)) (F64.finite (-0.95))
  let diff := F64.fsub mil (F64.finite (duration : ℝ))
  if F64.flt (F64.fabs diff) (F64.finite 0.001) then F64.finite 0
  else
    F64.fmax
      (F64.fmin
        (F64.fdiv
          (F64.fsub (F64.finite 90) (F64.mul (F64.fdiv diff mil) (F64.finite 90)))
          (F64.finite 100))
        (F64.finite 1))
      (F64.finite 0)

/-- fleshlight_launch_helper.rs `get_distance(duration: u32, mut speed: f64)`:
`speed <= 0` returns 0, `speed > 1` is clamped to 1, then `distCore`. -/
noncomputable def get_distance (duration : ℕ) (speed : F64) : F64 :=
  if F64.fle speed (F64.finite 0) then F64.finite 0
  else if F64.flt (F64.finite 1) speed then distCore duration (F64.finite 1)
  else distCore duration speed

/-- fleshlight_launch_helper.rs `get_speed(mut distance: f64, duration: u32)`:
`distance < 0` returns 0 (note: strictly less — `distance == 0` is NOT
guarded), `distance > 1` is clamped to 1, then
`250 * ((duration * 90) / (distance * 100)).powf(-1.05)`. -/
noncomputable def get_speed (distance : F64) (duration : ℕ) : F64 :=
  if F64.flt distance (F64.finite 0) then F64.finite 0
  else
    let d := if F64.flt (F64.finite 1) distance then F64.finite 1 else distance
    let scalar :=
      F64.powf
        (F64.fdiv (F64.mul (F64.finite (duration : ℝ)) (F64.finite 90))
          (F64.mul d (F64.finite 100)))
        (F64.finite (-1.05))
    F64.mul (F64.finite 250) scalar

/-- fleshlight_launch_helper.rs `get_duration(mut distance: f64, mut speed: f64)`:
`distance <= 0 || speed <= 0` returns 0, both inputs clamped to at most 1,
then `mil / (90 / (distance * 100))` with `mil = (speed / 250).powf(-0.95)`. -/
noncomputable def get_duration (distance speed : F64) : F64 :=
  if F64.fle distance (F64.finite 0) ∨ F64.fle speed (F64.finite 0) then F64.finite 0
  else
    let d := if F64.flt (F64.finite 1) distance then F64.finite 1 else distance
    let s := if F64.flt (F64.finite 1) speed then F64.finite 1 else speed
    let mil := F64.powf (F64.fdiv s (F64.finite 250)) (F64.finite (-0.95))
    F64.fdiv mil (F64.fdiv (F64.finite 90) (F64.mul d (F64.finite 100)))

/-! ## lovense.rs: data model -/

/-- Logical channels on a device (lovense.rs uses `Endpoint::Rx` and
`Endpoint::Tx`). -/
inductive Endpoint where
  | Rx
  | Tx
deriving DecidableEq

/-- Errors surfaced by the protocol layer.  `ButtplugDeviceError::new(msg)`
wrapped into `ButtplugError` is modelled as `deviceError msg`. -/
inductive ButtplugError where
  | deviceError (msg : String)
deriving DecidableEq

/-- Events coming out of `device_impl.get_event_receiver()`: a notification
carrying raw bytes on an endpoint, or the removal of the device. -/
inductive ButtplugDeviceEvent where
  | Notification (ep : Endpoint) (n : List Nat)
  | Removed
deriving DecidableEq

/-- Outcome of running a piece of Rust code that may return `Ok`, return an
`Err`, or panic (a `.unwrap()` on `None` / `Err`). -/
inductive POutcome (α : Type) where
  | ok (a : α)
  | err (e : ButtplugError)
  | panicWith (msg : String)
deriving DecidableEq

/-- Operations the handshake performs against the device transport, recorded
in order. -/
inductive DeviceOp where
  | subscribe (ep : Endpoint)
  | write (ep : Endpoint) (bytes : List Nat)
  | unsubscribe (ep : Endpoint)
deriving DecidableEq

/-- Model of the `device_impl` collaborator as seen by one handshake run: the
results of the three transport calls and the single event awaited from the
event receiver (`None` models the stream ending with no response). -/
structure DeviceModel where
  subscribeResult : Except ButtplugError Unit
  writeResult : Except ButtplugError Unit
  nextEvent : Option ButtplugDeviceEvent
  unsubscribeResult : Except ButtplugError Unit

/-- Device attribute set resolved from the configuration (motor counts). -/
structure ProtocolAttrs where
  vibrateCount : Nat
  rotateCount : Nat
deriving DecidableEq

/-- The configuration collaborator: maps an identity key to a name map
(language tag to display name) and an attribute set. -/
structure DeviceProtocolConfiguration where
  entries : List (String × (List (String × String)) × ProtocolAttrs)
deriving DecidableEq

/-- `DeviceProtocolConfiguration::get_attributes(identifier)`. -/
def DeviceProtocolConfiguration.get_attributes
    (c : DeviceProtocolConfiguration) (identifier : String) :
    Option ((List (String × String)) × ProtocolAttrs) :=
  (c.entries.find? (fun e => e.1 == identifier)).map (fun e => e.2)

/-- Lookup in the resolved name map (`names.get("en-us")`). -/
def namesGet (names : List (String × String)) (key : String) : Option String :=
  (names.find? (fun e => e.1 == key)).map (fun e => e.2)

/-! ## UTF-8 decoding (`std::str::from_utf8`)

`std::str::from_utf8` accepts exactly well-formed UTF-8 (RFC 3629: shortest
form, no surrogates, at most U+10FFFF).  `utf8Decode` returns the decoded
characters, or `none` on any ill-formed input. -/

/-- Decode a byte list as UTF-8, rejecting overlong encodings, surrogates and
code points above U+10FFFF, exactly as `std::str::from_utf8` does. -/
def utf8Decode : List Nat → Option (List Char)
  | [] => some []
  | b :: rest =>
    if b < 0x80 then
      (utf8Decode rest).map (fun cs => Char.ofNat b :: cs)
    else if b < 0xC2 then none
    else if b < 0xE0 then
      match rest with
      | b1 :: rest1 =>
        if 0x80 ≤ b1 && b1 < 0xC0 then
          (utf8Decode rest1).map
            (fun cs => Char.ofNat ((b - 0xC0) * 0x40 + (b1 - 0x80)) :: cs)
        else none
      | [] => none
    else if b < 0xF0 then
      match rest with
      | b1 :: b2 :: rest2 =>
        if (if b = 0xE0 then 0xA0 else 0x80) ≤ b1 &&
            b1 ≤ (if b = 0xED then 0x9F else 0xBF) &&
            0x80 ≤ b2 && b2 < 0xC0 then
          (utf8Decode rest2).map
            (fun cs =>
              Char.ofNat ((b - 0xE0) * 0x1000 + (b1 - 0x80) * 0x40 + (b2 - 0x80)) :: cs)
        else none
      | _ => none
    else if b < 0xF5 then
      match rest with
      | b1 :: b2 :: b3 :: rest3 =>
        if (if b = 0xF0 then 0x90 else 0x80) ≤ b1 &&
            b1 ≤ (if b = 0xF4 then 0x8F else 0xBF) &&
            0x80 ≤ b2 && b2 < 0xC0 && 0x80 ≤ b3 && b3 < 0xC0 then
          (utf8Decode rest3).map
            (fun cs =>
              Char.ofNat
                ((b - 0xF0) * 0x40000 + (b1 - 0x80) * 0x1000 +
                  (b2 - 0x80) * 0x40 + (b3 - 0x80)) :: cs)
        else none
      | _ => none
    else none

/-- Encode an ASCII string as its byte list (used for the fixed payloads the
source builds with `"...".as_bytes()`). -/
def asciiBytes (s : String) : List Nat := s.data.map Char.toNat

/-! ## lovense.rs: protocol creation (handshake) -/

/-- Rust panic message for `Option::unwrap()` on `None`. -/
def optionUnwrapMsg : String := "called Option unwrap on a None value"

/-- Rust panic message for `Result::unwrap()` on `Err` (here: `from_utf8`
failing on ill-formed bytes). -/
def resultUnwrapMsg : String := "called Result unwrap on an Err value"

/-- Per-handshake generic command manager state, created fresh (every motor
in the never-sent state) when the protocol is constructed. -/
def freshVib (n : Nat) : List (Option Nat) := List.replicate n none

/-- Fresh rotation state (never sent) for `n` rotation motors. -/
def freshRot (n : Nat) : List (Option (Nat × Bool)) := List.replicate n none

/-- The Lovense protocol instance produced by a successful handshake:
resolved display name, attributes, the vendor auxiliary rotation state
(`last_rotation`, initialized to `None` by `create_buttplug_protocol!`), and
the fresh generic command manager state. -/
structure Lovense where
  name : String
  attrs : ProtocolAttrs
  lastRotation : Option (Nat × Bool)
  vibState : List (Option Nat)
  rotState : List (Option (Nat × Bool))
deriving DecidableEq

/-- `Lovense::new(name, attrs)`: fresh manager, no prior rotation state. -/
def Lovense.new (name : String) (attrs : ProtocolAttrs) : Lovense :=
  ⟨name, attrs, none, freshVib attrs.vibrateCount, freshRot attrs.rotateCount⟩

/-- lovense.rs lines 27-65, `LovenseProtocolCreator::try_create_protocol`:
subscribe to `Rx`, write `"DeviceType;"` to `Tx`, await one event; on a
notification, `from_utf8(...).unwrap()` the bytes, take the field before the
first `':'` as the identifier (Rust `split(':')[0]`), unsubscribe from `Rx`,
then `get_attributes(identifier).unwrap()` and `names.get("en-us").unwrap()`;
on `Removed` or on an ended stream, return a device error without
unsubscribing.  Returns the outcome together with the ordered list of
transport operations performed. -/
def tryCreateProtocol (config : DeviceProtocolConfiguration) (dev : DeviceModel) :
    POutcome Lovense × List DeviceOp :=
  let t0 := [DeviceOp.subscribe Endpoint.Rx]
  match dev.subscribeResult with
  | .error e => (.err e, t0)
  | .ok _ =>
    let t1 := t0 ++ [DeviceOp.write Endpoint.Tx (asciiBytes "DeviceType;")]
    match dev.writeResult with
    | .error e => (.err e, t1)
    | .ok _ =>
      match dev.nextEvent with
      | some (ButtplugDeviceEvent.Notification _ n) =>
        match utf8Decode n with
        | none => (.panicWith resultUnwrapMsg, t1)
        | some chars =>
          let identifier := String.mk (chars.takeWhile (fun c => c != ':'))
          let t2 := t1 ++ [DeviceOp.unsubscribe Endpoint.Rx]
          match dev.unsubscribeResult with
          | .error e => (.err e, t2)
          | .ok _ =>
            match config.get_attributes identifier with
            | none => (.panicWith optionUnwrapMsg, t2)
            | some (names, attrs) =>
              match namesGet names "en-us" with
              | none => (.panicWith optionUnwrapMsg, t2)
              | some name => (.ok (Lovense.new name attrs), t2)
      | some ButtplugDeviceEvent.Removed =>
        (.err (.deviceError "Lovense Device disconnected while getting DeviceType info."),
          t1)
      | none =>
        (.err (.deviceError "Did not get DeviceType return from Lovense device in time"),
          t1)

/-- Number of `unsubscribe(Rx)` operations in a transport trace. -/
def countUnsubRx (t : List DeviceOp) : Nat :=
  t.countP (fun op =>
    match op with
    | DeviceOp.unsubscribe Endpoint.Rx => true
    | _ => false)

/-! ## Generic command manager (spec-modelled) -/

/-- Modelled from the spec: the Generic Command Manager (spec section 4.2) is
not among the provided source files; only its caller (lovense.rs) is.
`update_vibration` fails with a validation error when the supplied vector
length differs from the motor count (with no state mutation); otherwise each
motor whose device-scaled value equals the stored last-sent value is reported
as `None`, every other motor (changed, or never sent) is reported as
`Some value`, and the stored state is updated optimistically to the new
values.  Intensities are taken as already device-scaled integers; the
device-attribute-dependent float-to-step scaling is outside this model. -/
def update_vibration (state : List (Option Nat)) (msg : List Nat) :
    Except ButtplugError (List (Option Nat) × List (Option Nat)) :=
  if msg.length ≠ state.length then
    .error (.deviceError "Command has wrong number of motors")
  else
    let diffs := (state.zip msg).map (fun p =>
      match p.1 with
      | some old => if old = p.2 then none else some p.2
      | none => some p.2)
    .ok (diffs, msg.map some)

/-- Modelled from the spec: `update_rotation` (spec section 4.2) has the same
shape as `update_vibration` over (speed, clockwise) pairs; a motor is
reported `None` only when both the speed and the direction are unchanged. -/
def update_rotation (state : List (Option (Nat × Bool))) (msg : List (Nat × Bool)) :
    Except ButtplugError (List (Option (Nat × Bool)) × List (Option (Nat × Bool))) :=
  if msg.length ≠ state.length then
    .error (.deviceError "Command has wrong number of motors")
  else
    let diffs := (state.zip msg).map (fun p =>
      match p.1 with
      | some old => if old = p.2 then none else some p.2
      | none => some p.2)
    .ok (diffs, msg.map some)

/-! ## lovense.rs: command handlers -/

/-- The combined write `format!("Vibrate:{};", cmds[0].unwrap())`. -/
def vibrateAllCmd (v : Nat) : String := "Vibrate:" ++ toString v ++ ";"

/-- The per-motor write `format!("Vibrate{}:{};", i + 1, speed)` for motor
index `i` (the wire format is 1-based). -/
def vibrateMotorCmd (i : Nat) (v : Nat) : String :=
  "Vibrate" ++ toString (i + 1) ++ ":" ++ toString v ++ ";"

/-- The rotation direction-change write `"RotateChange;"`. -/
def rotateChangeCmd : String := "RotateChange;"

/-- The rotation speed write `format!("Rotate:{};", speed)`. -/
def rotateSpeedCmd (s : Nat) : String := "Rotate:" ++ toString s ++ ";"

/-- Rust `cmds.windows(2).all(|w| w[0] == w[1])`: all adjacent pairs equal
(true for lists of length at most one, whose 2-windows are empty). -/
def allAdjEqual : List (Option Nat) → Bool
  | [] => true
  | [_] => true
  | a :: b :: rest => a == b && allAdjEqual (b :: rest)

/-- The loop `for i in 0..cmds.len() {{ if let Some(speed) = cmds[i] {{ write
Vibrate(i+1):speed; }} }}` from lovense.rs lines 94-99, rendered as a
recursion carrying the loop index. -/
def vibrateLoop : Nat → List (Option Nat) → List String
  | _, [] => []
  | i, some speed :: rest => vibrateMotorCmd i speed :: vibrateLoop (i + 1) rest
  | i, none :: rest => vibrateLoop (i + 1) rest

/-- lovense.rs lines 87-103, the `VibrateCmd` handler body applied to the
result of `update_vibration`: on `Ok(cmds)`, if `!cmds[0].is_none() &&
(cmds.len() == 1 || cmds.windows(2).all(|w| w[0] == w[1]))` emit the single
combined write, otherwise emit one indexed write per `Some` motor; on `Err(e)`
return the error.  `cmds[0]` on an empty vector panics.  Writes are returned
in emission order (each one targets `Endpoint::Tx`). -/
def lovenseVibrateCore (result : Except ButtplugError (List (Option Nat))) :
    POutcome Unit × List String :=
  match result with
  | .error e => (.err e, [])
  | .ok cmds =>
    match cmds.head? with
    | none => (.panicWith "index out of bounds", [])
    | some c0 =>
      match c0 with
      | some v =>
        if cmds.length == 1 || allAdjEqual cmds then
          (.ok (), [vibrateAllCmd v])
        else
          (.ok (), vibrateLoop 0 cmds)
      | none => (.ok (), vibrateLoop 0 cmds)

/-- lovense.rs lines 105-141, the `RotateCmd` handler body applied to the
result of `update_rotation` and to the stored `last_rotation` auxiliary
state: on `Ok(cmds)`, if `cmds[0]` is `Some((speed, clockwise))` then, when a
prior `last_rotation` exists, push `"RotateChange;"` if the direction differs
and then `format!("Rotate:{};", speed)` if the speed differs (in that order);
with no prior `last_rotation` nothing is pushed; `last_rotation` is then set
to the new pair and the collected writes are issued in order.  `cmds[0]` on
an empty vector panics.  Returns (outcome, writes, new last_rotation). -/
def lovenseRotateCore (result : Except ButtplugError (List (Option (Nat × Bool))))
    (lastRotation : Option (Nat × Bool)) :
    POutcome Unit × List String × Option (Nat × Bool) :=
  match result with
  | .error e => (.err e, [], lastRotation)
  | .ok cmds =>
    match cmds.head? with
    | none => (.panicWith "index out of bounds", [], lastRotation)
    | some none => (.ok (), [], lastRotation)
    | some (some (speed, clockwise)) =>
      let lovenseCmds :=
        match lastRotation with
        | some (rotSpeed, rotDir) =>
          (if rotDir ≠ clockwise then [rotateChangeCmd] else []) ++
            (if rotSpeed ≠ speed then [rotateSpeedCmd speed] else [])
        | none => []
      (.ok (), lovenseCmds, some (speed, clockwise))

/-- Result of one full `VibrateCmd` dispatch: handler outcome, transport
writes in order, and the manager state afterwards. -/
structure VibrateResult where
  out : POutcome Unit
  writes : List String
  mgr : List (Option Nat)
deriving DecidableEq

/-- Result of one full `RotateCmd` dispatch: handler outcome, transport
writes in order, the `last_rotation` state afterwards, and the manager state
afterwards. -/
structure RotateResult where
  out : POutcome Unit
  writes : List String
  last : Option (Nat × Bool)
  mgr : List (Option (Nat × Bool))
deriving DecidableEq

/-- One full `VibrateCmd` dispatch: `update_vibration` (which mutates the
manager before the handler body runs) followed by the lovense.rs handler
body. -/
def handleVibrate (mgr : List (Option Nat)) (msg : List Nat) : VibrateResult :=
  match update_vibration mgr msg with
  | .error e => ⟨.err e, [], mgr⟩
  | .ok (cmds, mgr2) =>
    let r := lovenseVibrateCore (.ok cmds)
    ⟨r.1, r.2, mgr2⟩

/-- One full `RotateCmd` dispatch: `update_rotation` followed by the
lovense.rs handler body acting on `last_rotation`. -/
def handleRotate (mgr : List (Option (Nat × Bool))) (last : Option (Nat × Bool))
    (msg : List (Nat × Bool)) : RotateResult :=
  match update_rotation mgr msg with
  | .error e => ⟨.err e, [], last, mgr⟩
  | .ok (cmds, mgr2) =>
    let r := lovenseRotateCore (.ok cmds) last
    ⟨r.1, r.2.1, r.2.2, mgr2⟩

/-! ## Concrete fixtures -/

/-- A configuration knowing one identity, `"LVS"`, with an `"en-us"` name. -/
def exampleConfig : DeviceProtocolConfiguration :=
  ⟨[("LVS", [("en-us", "Lovense Test Device")], ⟨2, 1⟩)]⟩

/-- A device whose transport succeeds and whose identity notification is
`"Incorrect:W:10"` — an identity `exampleConfig` does not know. -/
def unknownIdentityDev : DeviceModel :=
  ⟨.ok (), .ok (), some (.Notification Endpoint.Rx (asciiBytes "Incorrect:W:10")), .ok ()⟩

/-- A device whose transport succeeds and whose identity notification is
`"LVS:W:10"`, which `exampleConfig` resolves. -/
def knownIdentityDev : DeviceModel :=
  ⟨.ok (), .ok (), some (.Notification Endpoint.Rx (asciiBytes "LVS:W:10")), .ok ()⟩

/-- A device that emits `Removed` instead of an identity notification. -/
def removedDev : DeviceModel :=
  ⟨.ok (), .ok (), some .Removed, .ok ()⟩

/-- A device whose event stream ends with no response. -/
def silentDev : DeviceModel :=
  ⟨.ok (), .ok (), none, .ok ()⟩

/-- A device whose identity notification is the ill-formed UTF-8 byte `0xFF`. -/
def badUtf8Dev : DeviceModel :=
  ⟨.ok (), .ok (), some (.Notification Endpoint.Rx [0xFF]), .ok ()⟩

/-! ## Theorems -/

/-- Helper: `cmds.windows(2).all(|w| w[0] == w[1])` holds exactly when every
element equals the head. -/
theorem allAdjEqual_iff (a : Option Nat) (l : List (Option Nat)) :
    allAdjEqual (a :: l) = true ↔ ∀ c ∈ a :: l, c = a := by
  induction l generalizing a with
  | nil => simp [allAdjEqual]
  | cons b t ih =>
    rw [show allAdjEqual (a :: b :: t) = ((a == b) && allAdjEqual (b :: t)) from rfl,
      Bool.and_eq_true, beq_iff_eq, ih]
    constructor
    · rintro ⟨hab, hall⟩
      intro c hc
      rcases List.mem_cons.mp hc with h | h
      · exact h
      · exact (hall c h).trans hab.symm
    · intro hall
      refine ⟨(hall b (by simp)).symm, fun c hc => ?_⟩
      exact (hall c (List.mem_cons_of_mem _ hc)).trans (hall b (by simp)).symm

/-- Helper: the indexed-write loop is the filterMap over the enumerated
command vector. -/
theorem vibrateLoop_eq_enumFrom (l : List (Option Nat)) (n : Nat) :
    vibrateLoop n l =
      (l.enumFrom n).filterMap (fun p => p.2.map (fun v => vibrateMotorCmd p.1 v)) := by
  induction l generalizing n with
  | nil => rfl
  | cons c t ih =>
    cases c <;> simp [vibrateLoop, List.enumFrom, ih]

/-- C1: the spec requires that an identity string that is received but not
known to the configuration collaborator produce an `UnknownDevice`
construction error; the code instead calls `.unwrap()` on the `None` returned
by `get_attributes` (lovense.rs line 62) and panics.  Evaluated at the
failing input: transport succeeds, identity notification `"Incorrect:W:10"`,
configuration knowing only `"LVS"`. -/
theorem c1_unknown_identity_panics :
    (tryCreateProtocol exampleConfig unknownIdentityDev).1 =
      POutcome.panicWith optionUnwrapMsg := by
  rfl

/-- C2 counterexample: on the `Removed` exit path the function returns the
disconnect error having performed no `unsubscribe(Rx)` at all, refuting
"unsubscribed exactly once whichever exit path is taken". -/
theorem c2_counterexample :
    (tryCreateProtocol exampleConfig removedDev).1 =
      POutcome.err
        (.deviceError "Lovense Device disconnected while getting DeviceType info.") ∧
    countUnsubRx (tryCreateProtocol exampleConfig removedDev).2 = 0 :=
  ⟨rfl, rfl⟩

/-- C2 (amended): with subscribe and the identification write succeeding, the
`Rx` endpoint is unsubscribed exactly once on the path where an identity
notification with UTF-8-decodable payload is received (whatever the
configuration lookup and unsubscribe call then do), and is never unsubscribed
on the `Removed` and ended-stream exit paths. -/
theorem c2_amended_unsubscribe_per_path (cfg : DeviceProtocolConfiguration)
    (dev : DeviceModel)
    (hs : dev.subscribeResult = .ok ()) (hw : dev.writeResult = .ok ()) :
    (∀ ep n chars, dev.nextEvent = some (.Notification ep n) →
      utf8Decode n = some chars →
      countUnsubRx (tryCreateProtocol cfg dev).2 = 1) ∧
    (dev.nextEvent = some .Removed →
      countUnsubRx (tryCreateProtocol cfg dev).2 = 0) ∧
    (dev.nextEvent = none →
      countUnsubRx (tryCreateProtocol cfg dev).2 = 0) := by
  refine ⟨?_, ?_, ?_⟩
  · intro ep n chars hev hok
    simp only [tryCreateProtocol, hs, hw, hev, hok]
    cases hu : dev.unsubscribeResult with
    | error e => rfl
    | ok u =>
      cases hg : cfg.get_attributes (String.mk (List.takeWhile (fun c => c != ':') chars)) with
      | none => rfl
      | some p =>
        obtain ⟨names, attrs⟩ := p
        cases hn : namesGet names "en-us" <;> simp [hn, countUnsubRx]
  · intro hev
    simp only [tryCreateProtocol, hs, hw, hev]
    rfl
  · intro hev
    simp only [tryCreateProtocol, hs, hw, hev]
    rfl

/-- C2 witness: the success-path device is unsubscribed exactly once. -/
theorem c2_witness :
    countUnsubRx (tryCreateProtocol exampleConfig knownIdentityDev).2 = 1 :=
  (c2_amended_unsubscribe_per_path exampleConfig knownIdentityDev rfl rfl).1
    Endpoint.Rx (asciiBytes "LVS:W:10") ("LVS:W:10".data) rfl (by decide)

/-- C4: with no prior rotation state the handler stores the new (speed,
direction) pair but emits no write at all — neither a speed-set frame nor a
direction frame — because the `if let Some(..) = *last_rotation` guard
(lovense.rs line 123) skips both pushes.  The claim (and the spec's
"first command after (re)connect is never suppressed") expects a speed
frame. -/
theorem c4_first_rotate_writes_nothing :
    (handleRotate (freshRot 1) none [(10, true)]).writes = [] ∧
    (handleRotate (freshRot 1) none [(10, true)]).last = some (10, true) ∧
    (handleRotate (freshRot 1) none [(10, true)]).out = POutcome.ok () :=
  ⟨rfl, rfl, rfl⟩

/-- C5: with prior rotation state (s, d) stored (in the manager and in
`last_rotation`, which the dispatch loop keeps in sync), a Rotate command
with the same speed and flipped direction emits exactly the
`"RotateChange;"` frame and no speed frame; and when both the direction and
the speed differ, the direction-change frame precedes the speed frame. -/
theorem c5_direction_flip_frames (s s2 : Nat) (d d2 : Bool)
    (hd : d2 ≠ d) (hs2 : s2 ≠ s) :
    (handleRotate [some (s, d)] (some (s, d)) [(s, !d)]).writes = [rotateChangeCmd] ∧
    (handleRotate [some (s, d)] (some (s, d)) [(s2, d2)]).writes =
      [rotateChangeCmd, rotateSpeedCmd s2] := by
  constructor
  · cases d <;> simp [handleRotate, update_rotation, lovenseRotateCore]
  · simp [handleRotate, update_rotation, lovenseRotateCore, Ne.symm hd, Ne.symm hs2]

/-- C5 witness at s = 1, s2 = 2, d = true, d2 = false. -/
theorem c5_witness :
    (handleRotate [some (1, true)] (some (1, true)) [(1, false)]).writes =
      [rotateChangeCmd] ∧
    (handleRotate [some (1, true)] (some (1, true)) [(2, false)]).writes =
      [rotateChangeCmd, rotateSpeedCmd 2] :=
  c5_direction_flip_frames 1 2 true false (by decide) (by decide)

/-- C6: when `update_vibration` / `update_rotation` returns a validation
error, the corresponding handler returns that error unchanged, performs zero
transport writes, and leaves the manager state unchanged. -/
theorem c6_validation_error_propagates
    (mgrV : List (Option Nat)) (msgV : List Nat)
    (mgrR : List (Option (Nat × Bool))) (lastR : Option (Nat × Bool))
    (msgR : List (Nat × Bool)) (e e2 : ButtplugError)
    (hV : update_vibration mgrV msgV = .error e)
    (hR : update_rotation mgrR msgR = .error e2) :
    handleVibrate mgrV msgV = ⟨.err e, [], mgrV⟩ ∧
    handleRotate mgrR lastR msgR = ⟨.err e2, [], lastR, mgrR⟩ := by
  constructor
  · simp [handleVibrate, hV]
  · simp [handleRotate, hR]

/-- C6 witness: an empty command vector against a one-motor manager is a
motor-count mismatch for both handlers. -/
theorem c6_witness :
    handleVibrate [none] [] =
      ⟨.err (.deviceError "Command has wrong number of motors"), [], [none]⟩ ∧
    handleRotate [none] none [] =
      ⟨.err (.deviceError "Command has wrong number of motors"), [], none, [none]⟩ :=
  c6_validation_error_propagates [none] [] [none] none []
    (.deviceError "Command has wrong number of motors")
    (.deviceError "Command has wrong number of motors") rfl rfl

/-- C10: when the identity notification payload is not valid UTF-8, the
handshake panics (the `from_utf8(&n).unwrap()` at lovense.rs line 41) instead
of returning a handshake error. -/
theorem c10_invalid_utf8_panics (cfg : DeviceProtocolConfiguration)
    (dev : DeviceModel) (ep : Endpoint) (n : List Nat)
    (hs : dev.subscribeResult = .ok ()) (hw : dev.writeResult = .ok ())
    (hev : dev.nextEvent = some (.Notification ep n))
    (hbad : utf8Decode n = none) :
    (tryCreateProtocol cfg dev).1 = POutcome.panicWith resultUnwrapMsg := by
  simp only [tryCreateProtocol, hs, hw, hev, hbad]

/-- C10 witness: the single byte `0xFF` is ill-formed UTF-8 and panics the
handshake. -/
theorem c10_witness :
    (tryCreateProtocol exampleConfig badUtf8Dev).1 =
      POutcome.panicWith resultUnwrapMsg :=
  c10_invalid_utf8_panics exampleConfig badUtf8Dev Endpoint.Rx [0xFF]
    rfl rfl rfl (by decide)

/-- C3 counterexample: for the successful `update_vibration` result
`[Some 5, None]` every changed motor reports the identical value (5), yet the
handler takes the per-motor path — the combined-write guard also requires
`cmds[0]` to be `Some` and all elements (including the `None`) pairwise
equal — emitting `"Vibrate1:5;"` rather than the single combined
`"Vibrate:5;"` the claim requires. -/
theorem c3_counterexample :
    (([some 5, none] : List (Option Nat)).filterMap id).all (fun v => v == 5) = true ∧
    lovenseVibrateCore (.ok [some 5, none]) = (.ok (), [vibrateMotorCmd 0 5]) ∧
    lovenseVibrateCore (.ok [some 5, none]) ≠ (.ok (), [vibrateAllCmd 5]) := by
  refine ⟨rfl, rfl, ?_⟩
  decide

/-- C3 (amended): the handler emits the single combined `"Vibrate:v;"` write
exactly when every motor (not merely every changed motor) reports `Some` of
one identical value; in every other successful case it emits one indexed
`"Vibrate{i+1}:v;"` write per motor reported `Some`, in increasing motor
order, and none for motors reported `None`. -/
theorem c3_amended_batching (cmds : List (Option Nat)) (hne : cmds ≠ []) :
    ((∃ v, ∀ c ∈ cmds, c = some v) →
      ∃ v, (∀ c ∈ cmds, c = some v) ∧
        lovenseVibrateCore (.ok cmds) = (.ok (), [vibrateAllCmd v])) ∧
    ((¬ ∃ v, ∀ c ∈ cmds, c = some v) →
      lovenseVibrateCore (.ok cmds) =
        (.ok (), (cmds.enumFrom 0).filterMap
          (fun p => p.2.map (fun v => vibrateMotorCmd p.1 v)))) := by
  obtain ⟨c0, rest, rfl⟩ := List.exists_cons_of_ne_nil hne
  constructor
  · rintro ⟨v, hall⟩
    have hc0 : c0 = some v := hall c0 (by simp)
    subst hc0
    refine ⟨v, hall, ?_⟩
    have hadj : allAdjEqual (some v :: rest) = true := (allAdjEqual_iff _ _).mpr hall
    simp [lovenseVibrateCore, hadj]
  · intro hnone
    cases c0 with
    | none =>
      simp [lovenseVibrateCore, vibrateLoop_eq_enumFrom]
    | some v =>
      have hadj : allAdjEqual (some v :: rest) = false := by
        rw [Bool.eq_false_iff]
        intro h
        exact hnone ⟨v, fun c hc => (allAdjEqual_iff _ _).mp h c hc⟩
      cases rest with
      | nil => exact absurd ⟨v, by simp⟩ hnone
      | cons r rs =>
        simp [lovenseVibrateCore, hadj, vibrateLoop_eq_enumFrom]

/-- C3 witness: two motors both changed to 7 take the combined-write path. -/
theorem c3_witness :
    ∃ v, (∀ c ∈ ([some 7, some 7] : List (Option Nat)), c = some v) ∧
      lovenseVibrateCore (.ok [some 7, some 7]) = (.ok (), [vibrateAllCmd v]) :=
  (c3_amended_batching [some 7, some 7] (by decide)).1 ⟨7, by decide⟩

/-- Helper: the unguarded `get_speed(0, 0)` path computes `(0 * 90) / (0 *
100) = 0/0 = NaN`, `NaN.powf(-1.05) = NaN`, `250 * NaN = NaN`. -/
theorem get_speed_zero_zero : get_speed (F64.finite 0) 0 = F64.nan := by
  norm_num [get_speed, F64.flt, F64.mul, F64.fdiv, F64.powf]

/-- Helper: `get_distance(0, 1)` is exactly 0: `mil = (1/250)^(-0.95) > 1`,
`diff = mil - 0 = mil`, the `|diff| < 0.001` shortcut misses, and the stroke
expression collapses to `(90 - 1 * 90) / 100 = 0`, clamped to 0. -/
theorem get_distance_zero_one : get_distance 0 (F64.finite 1) = F64.finite 0 := by
  have hm : (1:ℝ) < ((1:ℝ)/250) ^ (-0.95 : ℝ) :=
    Real.one_lt_rpow_of_pos_of_lt_one_of_neg (by norm_num) (by norm_num) (by norm_num)
  have hm0 : (0:ℝ) < ((1:ℝ)/250) ^ (-0.95 : ℝ) := lt_trans one_pos hm
  have hne : ((1:ℝ)/250) ^ (-0.95 : ℝ) ≠ 0 := ne_of_gt hm0
  have hlt : ¬ (((1:ℝ)/250) ^ (-0.95 : ℝ) < 0.001) := by linarith
  norm_num [get_distance, distCore, F64.fle, F64.flt, F64.fdiv, F64.powf, F64.fsub,
    F64.fabs, F64.mul, F64.fmin, F64.fmax, abs_of_pos hm0, hlt, div_self hne,
    min_def, max_def]

/-- C7 counterexample: `distance = 0` satisfies `distance <= 0`, but
`get_speed(0, 0)` is NaN (an unguarded `0/0`), not 0, refuting "returns 0
for every distance <= 0 and every duration". -/
theorem c7_counterexample :
    F64.fle (F64.finite 0) (F64.finite 0) ∧
    get_speed (F64.finite 0) 0 = F64.nan ∧
    get_speed (F64.finite 0) 0 ≠ F64.finite 0 := by
  refine ⟨by simp [F64.fle], get_speed_zero_zero, ?_⟩
  rw [get_speed_zero_zero]
  simp

/-- C7 (amended): `get_speed` returns 0 for every `distance < 0` (any
duration), and for `distance = 0` whenever `duration > 0` (the division
yields `+inf` and `inf.powf(-1.05) = 0`); at `distance = 0, duration = 0`
it returns NaN instead. -/
theorem c7_amended_nonpositive_distance (dist : F64) (dur : ℕ) :
    (F64.flt dist (F64.finite 0) → get_speed dist dur = F64.finite 0) ∧
    (dist = F64.finite 0 → 0 < dur → get_speed dist dur = F64.finite 0) ∧
    (dist = F64.finite 0 → dur = 0 → get_speed dist dur = F64.nan) := by
  refine ⟨?_, ?_, ?_⟩
  · intro h
    simp [get_speed, h]
  · rintro rfl hdur
    have hc : (0:ℝ) < (dur : ℝ) * 90 :=
      mul_pos (by exact_mod_cast hdur) (by norm_num)
    norm_num [get_speed, F64.flt, F64.mul, F64.fdiv, F64.powf, hc]
  · rintro rfl rfl
    norm_num [get_speed, F64.flt, F64.mul, F64.fdiv, F64.powf]

/-- C7 witness at distance -1 (duration 0), distance 0 (duration 1), and the
NaN point (0, 0). -/
theorem c7_witness :
    get_speed (F64.finite (-1)) 0 = F64.finite 0 ∧
    get_speed (F64.finite 0) 1 = F64.finite 0 ∧
    get_speed (F64.finite 0) 0 = F64.nan :=
  ⟨(c7_amended_nonpositive_distance (F64.finite (-1)) 0).1 (by norm_num [F64.flt]),
   (c7_amended_nonpositive_distance (F64.finite 0) 1).2.1 rfl (by norm_num),
   (c7_amended_nonpositive_distance (F64.finite 0) 0).2.2 rfl rfl⟩

/-- Helper for C8: for any positive finite (clamped) speed the core stroke
computation lands in `[0, 1]`: either the `|diff| < 0.001` shortcut returns
0, or the final `.min(1.0).max(0.0)` clamps the finite stroke value. -/
theorem distCore_mem_unit (dur : ℕ) (s : ℝ) (hs : 0 < s) :
    ∃ x : ℝ, distCore dur (F64.finite s) = F64.finite x ∧ 0 ≤ x ∧ x ≤ 1 := by
  have ha : (0:ℝ) < s / 250 := by positivity
  have hm0 : (0:ℝ) < (s/250) ^ (-0.95:ℝ) := Real.rpow_pos_of_pos ha _
  have hmne : (s/250) ^ (-0.95:ℝ) ≠ 0 := ne_of_gt hm0
  simp only [distCore]
  rw [show F64.fdiv (F64.finite s) (F64.finite 250) = F64.finite (s/250) from by
    norm_num [F64.fdiv]]
  rw [show F64.powf (F64.finite (s/250)) (F64.finite (-0.95)) =
      F64.finite ((s/250) ^ (-0.95:ℝ)) from by norm_num [F64.powf, ha]]
  simp only [F64.fsub, F64.fabs]
  by_cases habs : |(s/250) ^ (-0.95:ℝ) - (dur:ℝ)| < 0.001
  · rw [if_pos (by simp [F64.flt, habs])]
    exact ⟨0, rfl, le_refl 0, by norm_num⟩
  · rw [if_neg (by simpa [F64.flt] using habs)]
    rw [show F64.fdiv (F64.finite ((s/250) ^ (-0.95:ℝ) - (dur:ℝ)))
        (F64.finite ((s/250) ^ (-0.95:ℝ))) =
        F64.finite (((s/250) ^ (-0.95:ℝ) - (dur:ℝ)) / (s/250) ^ (-0.95:ℝ)) from by
      simp [F64.fdiv, hmne]]
    simp only [F64.mul, F64.fsub]
    rw [show F64.fdiv
        (F64.finite (90 - ((s/250) ^ (-0.95:ℝ) - (dur:ℝ)) / (s/250) ^ (-0.95:ℝ) * 90))
        (F64.finite 100) =
        F64.finite ((90 - ((s/250) ^ (-0.95:ℝ) - (dur:ℝ)) / (s/250) ^ (-0.95:ℝ) * 90) / 100)
        from by norm_num [F64.fdiv]]
    simp only [F64.fmin, F64.fmax]
    exact ⟨_, rfl, le_max_right _ _, max_le (min_le_right _ _) (by norm_num)⟩

/-- C8: for every duration (u32: finite and non-negative) and every speed
value — including NaN and the infinities — `get_distance` returns a finite
value in `[0, 1]`: non-positive speeds return 0 early, positive speeds go
through the clamped core, and a NaN threaded through the arithmetic is
turned into 1 by Rust's `min`/`max` NaN handling. -/
theorem c8_distance_in_unit_interval (duration : ℕ) (speed : F64) :
    ∃ x : ℝ, get_distance duration speed = F64.finite x ∧ 0 ≤ x ∧ x ≤ 1 := by
  cases speed with
  | finite s =>
    by_cases hs : s ≤ 0
    · refine ⟨0, ?_, le_refl 0, by norm_num⟩
      simp [get_distance, F64.fle, hs]
    · push_neg at hs
      by_cases h1 : (1:ℝ) < s
      · rw [show get_distance duration (F64.finite s) = distCore duration (F64.finite 1)
            from by simp [get_distance, F64.fle, F64.flt, h1, not_le.mpr hs]]
        exact distCore_mem_unit duration 1 one_pos
      · rw [show get_distance duration (F64.finite s) = distCore duration (F64.finite s)
            from by simp [get_distance, F64.fle, F64.flt, h1, not_le.mpr hs]]
        exact distCore_mem_unit duration s hs
  | inf =>
    rw [show get_distance duration F64.inf = distCore duration (F64.finite 1) from by
      simp [get_distance, F64.fle, F64.flt]]
    exact distCore_mem_unit duration 1 one_pos
  | neginf =>
    exact ⟨0, by simp [get_distance, F64.fle], le_refl 0, by norm_num⟩
  | nan =>
    refine ⟨1, ?_, by norm_num, le_refl 1⟩
    norm_num [get_distance, distCore, F64.fle, F64.flt, F64.fdiv, F64.powf, F64.fsub,
      F64.fabs, F64.mul, F64.fmin, F64.fmax, max_def]

/-- C9: the motion-curve functions are not exact inverses: at duration 0 and
speed 1 (within `0 < speed <= 1`), `get_distance(0, 1)` is exactly 0, and
`get_speed(0, 0)` is NaN — not the original speed 1. -/
theorem c9_not_exact_inverses :
    (0:ℝ) < 1 ∧ (1:ℝ) ≤ 1 ∧
    get_speed (get_distance 0 (F64.finite 1)) 0 ≠ F64.finite 1 := by
  refine ⟨by norm_num, le_refl 1, ?_⟩
  rw [get_distance_zero_one, get_speed_zero_zero]
  simp
